import Mathlib

/-!
Verification development for the taxFormClassifier repository
(`form_classifier.py`).

Python strings are modelled as `List Char` (`Str`).  Python `str.strip()`
is `pyStrip`, Python substring containment (`in`) is `List.IsInfix`.
The rapidfuzz `fuzz.partial_ratio` score and the stdlib `json.loads`
parser are external libraries, not code of this repository; they are
passed as explicit function parameters (`fuzz : Str → Str → Rat`,
`parse : Str → Except Str JValue`) so that every theorem holds for every
behaviour of those collaborators.
-/

abbrev Str := List Char

/-- Characters removed by Python `str.strip()` (the ASCII whitespace set;
the additional Unicode space code points behave identically and are
immaterial to the claims). -/
def isPySpace (c : Char) : Bool :=
  c = ' ' || c = '\t' || c = '\n' || c = '\r' || c = Char.ofNat 11 || c = Char.ofNat 12

/-- Python `str.strip()`: drop leading and trailing whitespace. -/
def pyStrip (s : Str) : Str :=
  ((s.dropWhile isPySpace).reverse.dropWhile isPySpace).reverse

/-- `form_classifier.py` lines 23-29: the `FormConfig` dataclass. -/
structure FormConfig where
  form_number : Str
  expected_title_1 : Str
  expected_title_2 : Str
  expected_pages : Int
deriving DecidableEq

/-- The config dictionary built in `_load_config` (lines 60-77): an
association from `form_number` to its `FormConfig`, keys unique.  Python
dict membership/taking is first-match lookup here. -/
def lookupConfig (cfgs : List (Str × FormConfig)) (k : Str) : Option FormConfig :=
  (cfgs.find? (fun p => p.1 = k)).map (·.2)

/-- `_verify_classification` (lines 290-331), translated clause by clause.
`fuzz` stands for the external `fuzz.partial_ratio` scorer (a 0-100
float, modelled as `Rat`). -/
def verifyClassification (cfgs : List (Str × FormConfig)) (fuzz : Str → Str → Rat)
    (form_number form_title : Str) (page_count : Int) : Bool :=
  match lookupConfig cfgs form_number with
  | none => false
  | some expected =>
    let extracted_title := pyStrip form_title
    let expected_title_1 := pyStrip expected.expected_title_1
    let expected_title_2 := pyStrip expected.expected_title_2
    let contains_match_1 := decide (expected_title_1 <:+: extracted_title)
    let contains_match_2 := decide (expected_title_2 <:+: extracted_title)
    let fuzzy_match_1 := decide ((85 : Rat) ≤ fuzz expected_title_1 extracted_title)
    let fuzzy_match_2 := decide ((85 : Rat) ≤ fuzz expected_title_2 extracted_title)
    let title_match := contains_match_1 || contains_match_2 || fuzzy_match_1 || fuzzy_match_2
    let page_match := decide (page_count = expected.expected_pages)
    title_match && page_match

/-- Shared characterisation of `_verify_classification` on a known form
number, used by the theorems below. -/
theorem verify_characterisation (cfgs : List (Str × FormConfig)) (fuzz : Str → Str → Rat)
    (form_number form_title : Str) (page_count : Int) (cfg : FormConfig)
    (h : lookupConfig cfgs form_number = some cfg) :
    verifyClassification cfgs fuzz form_number form_title page_count = true ↔
      ((pyStrip cfg.expected_title_1 <:+: pyStrip form_title
        ∨ pyStrip cfg.expected_title_2 <:+: pyStrip form_title
        ∨ (85 : Rat) ≤ fuzz (pyStrip cfg.expected_title_1) (pyStrip form_title)
        ∨ (85 : Rat) ≤ fuzz (pyStrip cfg.expected_title_2) (pyStrip form_title))
       ∧ page_count = cfg.expected_pages) := by
  unfold verifyClassification
  rw [h]
  simp only [Bool.and_eq_true, Bool.or_eq_true, decide_eq_true_eq]
  tauto

/-- C1: For a form number present in the config table, `verify` returns
true iff some of the four title checks (containment of either trimmed
expected title in the trimmed extracted title, or partial-ratio score at
least 85 for either expected title) succeeds and the extracted page
count equals the expected page count exactly; hence an off-by-one page
count fails even with a matching title. -/
theorem verify_iff_title_and_pages (cfgs : List (Str × FormConfig)) (fuzz : Str → Str → Rat)
    (form_number form_title : Str) (page_count : Int) (cfg : FormConfig)
    (h : lookupConfig cfgs form_number = some cfg) :
    verifyClassification cfgs fuzz form_number form_title page_count = true ↔
      ((pyStrip cfg.expected_title_1 <:+: pyStrip form_title
        ∨ pyStrip cfg.expected_title_2 <:+: pyStrip form_title
        ∨ (85 : Rat) ≤ fuzz (pyStrip cfg.expected_title_1) (pyStrip form_title)
        ∨ (85 : Rat) ≤ fuzz (pyStrip cfg.expected_title_2) (pyStrip form_title))
       ∧ page_count = cfg.expected_pages) :=
  verify_characterisation cfgs fuzz form_number form_title page_count cfg h

/-- C1 witness: a concrete config entry where the first expected title is
contained in the extracted title and the page count matches. -/
theorem verify_iff_title_and_pages_witness :
    lookupConfig [(['1'], ⟨['1'], ['a'], ['b'], 3⟩)] ['1'] = some ⟨['1'], ['a'], ['b'], 3⟩ ∧
      (verifyClassification [(['1'], ⟨['1'], ['a'], ['b'], 3⟩)] (fun _ _ => 0) ['1'] ['a'] 3 = true ↔
        ((pyStrip ['a'] <:+: pyStrip ['a']
          ∨ pyStrip ['b'] <:+: pyStrip ['a']
          ∨ (85 : Rat) ≤ (fun (_ _ : Str) => (0 : Rat)) (pyStrip ['a']) (pyStrip ['a'])
          ∨ (85 : Rat) ≤ (fun (_ _ : Str) => (0 : Rat)) (pyStrip ['b']) (pyStrip ['a']))
         ∧ (3 : Int) = 3)) :=
  ⟨by decide,
   verify_iff_title_and_pages [(['1'], ⟨['1'], ['a'], ['b'], 3⟩)] (fun _ _ => 0)
     ['1'] ['a'] 3 ⟨['1'], ['a'], ['b'], 3⟩ (by decide)⟩

/-- C3: An unknown form number is rejected regardless of title and page
count (lines 303-304). -/
theorem verify_unknown_form_false (cfgs : List (Str × FormConfig)) (fuzz : Str → Str → Rat)
    (form_number form_title : Str) (page_count : Int)
    (h : lookupConfig cfgs form_number = none) :
    verifyClassification cfgs fuzz form_number form_title page_count = false := by
  unfold verifyClassification
  rw [h]

/-- C3 witness: the empty config table rejects every query. -/
theorem verify_unknown_form_false_witness :
    lookupConfig [] ['1'] = none ∧
      verifyClassification [] (fun _ _ => 0) ['1'] ['t'] 3 = false :=
  ⟨rfl, verify_unknown_form_false [] (fun _ _ => 0) ['1'] ['t'] 3 rfl⟩

/-- C10: If either expected title trims to the empty string, the empty
string is a substring of every extracted title, so verification reduces
to the exact page-count check. -/
theorem verify_empty_expected_title (cfgs : List (Str × FormConfig)) (fuzz : Str → Str → Rat)
    (form_number form_title : Str) (page_count : Int) (cfg : FormConfig)
    (h : lookupConfig cfgs form_number = some cfg)
    (hempty : pyStrip cfg.expected_title_1 = [] ∨ pyStrip cfg.expected_title_2 = []) :
    verifyClassification cfgs fuzz form_number form_title page_count = true ↔
      page_count = cfg.expected_pages := by
  rw [verify_characterisation cfgs fuzz form_number form_title page_count cfg h]
  constructor
  · exact fun hx => hx.2
  · intro hp
    refine ⟨?_, hp⟩
    rcases hempty with h1 | h1
    · exact Or.inl (h1 ▸ List.nil_infix)
    · exact Or.inr (Or.inl (h1 ▸ List.nil_infix))

/-- C10 witness: an entry whose first expected title is whitespace-only
verifies a completely unrelated title exactly when the page count is
right. -/
theorem verify_empty_expected_title_witness :
    lookupConfig [(['7'], ⟨['7'], [' '], ['z'], 2⟩)] ['7'] = some ⟨['7'], [' '], ['z'], 2⟩ ∧
      (pyStrip [' '] = [] ∨ pyStrip ['z'] = []) ∧
      (verifyClassification [(['7'], ⟨['7'], [' '], ['z'], 2⟩)] (fun _ _ => 0) ['7'] ['q'] 2 = true ↔
        (2 : Int) = 2) :=
  ⟨by decide, Or.inl (by decide),
   verify_empty_expected_title [(['7'], ⟨['7'], [' '], ['z'], 2⟩)] (fun _ _ => 0)
     ['7'] ['q'] 2 ⟨['7'], [' '], ['z'], 2⟩ (by decide) (Or.inl (by decide))⟩

/-- Values produced by `json.loads`.  Numbers are modelled as integers
(the numeric fields of this application are integral; JSON floats do not
occur in the claims). -/
inductive JValue where
  | null : JValue
  | bool : Bool → JValue
  | num : Int → JValue
  | str : Str → JValue
  | arr : List JValue → JValue
  | obj : List (Str × JValue) → JValue

/-- Lookup in a JSON object (Python `dict` access by key). -/
def lookupField (fs : List (Str × JValue)) (k : Str) : Option JValue :=
  (fs.find? (fun p => p.1 = k)).map (·.2)

/-- Exception names used by the Python runtime. -/
def attributeErrorName : Str := "AttributeError".toList

def typeErrorName : Str := "TypeError".toList

def valueErrorName : Str := "ValueError".toList

def jsonDecodeErrorName : Str := "JSONDecodeError".toList

/-- Python `v.get(k, d)`: defined on dicts, raises `AttributeError` on
every other value (the runtime message text is abbreviated). -/
def pyGet (v : JValue) (k : Str) (d : JValue) : Except (Str × Str) JValue :=
  match v with
  | .obj fs => .ok ((lookupField fs k).getD d)
  | _ => .error (attributeErrorName, "object has no attribute get".toList)

def kFormClassification : Str := "form_classification".toList

def kFormNumber : Str := "form_number".toList

def kFormTitle : Str := "form_title".toList

def kPageCount : Str := "page_count".toList

def kValue : Str := "value".toList

def kConfidenceLevel : Str := "confidence_level".toList

def lowLabel : Str := "Low".toList

/-- One chained access `llm_response.get('form_classification', {}).get(k2, {}).get(k3, d)`
from lines 185-188. -/
def extractField (v : JValue) (k2 k3 : Str) (d : JValue) : Except (Str × Str) JValue := do
  let a ← pyGet v kFormClassification (.obj [])
  let b ← pyGet a k2 (.obj [])
  pyGet b k3 d

/-- The nested path `form_classification.k2.k3` is absent from the parsed
object `fs`: some key on the path is missing while every present
intermediate value is an object. -/
def pathAbsent (fs : List (Str × JValue)) (k2 k3 : Str) : Prop :=
  lookupField fs kFormClassification = none ∨
    ∃ gs, lookupField fs kFormClassification = some (.obj gs) ∧
      (lookupField gs k2 = none ∨
        ∃ hs, lookupField gs k2 = some (.obj hs) ∧ lookupField hs k3 = none)

theorem lookupField_nil (k : Str) : lookupField [] k = none := rfl

theorem extractField_of_pathAbsent (fs : List (Str × JValue)) (k2 k3 : Str) (d : JValue)
    (h : pathAbsent fs k2 k3) : extractField (.obj fs) k2 k3 d = .ok d := by
  rcases h with h1 | ⟨gs, hg, h2 | ⟨hs, hh, h3⟩⟩
  · simp [extractField, pyGet, h1, lookupField_nil, bind, Except.bind]
  · simp [extractField, pyGet, hg, h2, lookupField_nil, bind, Except.bind]
  · simp [extractField, pyGet, hg, hh, h3, lookupField_nil, bind, Except.bind]

/-- C7: Field extraction (lines 185-188) never raises on a missing key:
an absent `form_classification.form_number.value` yields `''`, an absent
`form_classification.form_title.value` yields `''`, an absent
`form_classification.page_count.value` yields `0`, and an absent
`form_classification.form_number.confidence_level` yields `'Low'`. -/
theorem extract_defaults_on_missing (fs : List (Str × JValue)) :
    (pathAbsent fs kFormNumber kValue →
      extractField (.obj fs) kFormNumber kValue (.str []) = .ok (.str [])) ∧
    (pathAbsent fs kFormTitle kValue →
      extractField (.obj fs) kFormTitle kValue (.str []) = .ok (.str [])) ∧
    (pathAbsent fs kPageCount kValue →
      extractField (.obj fs) kPageCount kValue (.num 0) = .ok (.num 0)) ∧
    (pathAbsent fs kFormNumber kConfidenceLevel →
      extractField (.obj fs) kFormNumber kConfidenceLevel (.str lowLabel) = .ok (.str lowLabel)) :=
  ⟨extractField_of_pathAbsent fs kFormNumber kValue (.str []),
   extractField_of_pathAbsent fs kFormTitle kValue (.str []),
   extractField_of_pathAbsent fs kPageCount kValue (.num 0),
   extractField_of_pathAbsent fs kFormNumber kConfidenceLevel (.str lowLabel)⟩

/-- C7 witness: on the empty object every path is absent and each of the
four extractions returns its documented default. -/
theorem extract_defaults_on_missing_witness :
    extractField (.obj []) kFormNumber kValue (.str []) = .ok (.str []) ∧
    extractField (.obj []) kFormTitle kValue (.str []) = .ok (.str []) ∧
    extractField (.obj []) kPageCount kValue (.num 0) = .ok (.num 0) ∧
    extractField (.obj []) kFormNumber kConfidenceLevel (.str lowLabel) = .ok (.str lowLabel) :=
  ⟨(extract_defaults_on_missing []).1 (Or.inl rfl),
   (extract_defaults_on_missing []).2.1 (Or.inl rfl),
   (extract_defaults_on_missing []).2.2.1 (Or.inl rfl),
   (extract_defaults_on_missing []).2.2.2 (Or.inl rfl)⟩

/-- The backquote character (code 96). -/
def backquote : Char := Char.ofNat 96

/-- The three-backquote markdown fence marker. -/
def fence3 : Str := [backquote, backquote, backquote]

/-- The seven-character opening marker of a json fence. -/
def fenceJsonOpen : Str := [backquote, backquote, backquote, 'j', 's', 'o', 'n']

/-- Python `s.replace('```', '')`: delete all non-overlapping occurrences
of the three-backquote marker, scanning left to right (line 164). -/
def removeTicks : Str → Str
  | [] => []
  | c :: rest =>
    if c = backquote ∧ rest.take 2 = [backquote, backquote] then
      removeTicks (rest.drop 2)
    else
      c :: removeTicks rest
termination_by s => s.length
decreasing_by
  · simpa using Nat.lt_succ_of_le (Nat.sub_le rest.length 2)
  · exact Nat.lt_succ_self rest.length

/-- Response-text preprocessing, lines 151-164: strip, then peel fence
markers (note the `elif`: a bare-fence prefix is only peeled when no
fence suffix was found), then delete remaining markers and strip again. -/
def stripFences (text : Str) : Str :=
  let json_text := pyStrip text
  let t1 := if fenceJsonOpen <+: json_text then json_text.drop 7 else json_text
  let t2 :=
    if fence3 <:+ t1 then t1.take (t1.length - 3)
    else if fence3 <+: t1 then
      let t := t1.drop 3
      if fence3 <:+ t then t.take (t.length - 3) else t
    else t1
  pyStrip (removeTicks t2)

/-- The regex fallback `re.search(r'\x7b.*\x7d', json_text, re.DOTALL)`
(lines 170-173): the span from the first opening brace to the last
closing brace after it, if any. -/
def dropBefore (c : Char) : Str → Option Str
  | [] => none
  | x :: xs => if x = c then some (x :: xs) else dropBefore c xs

def extractBraces (s : Str) : Option Str :=
  match dropBefore (Char.ofNat 123) s with
  | none => none
  | some t =>
    match dropBefore (Char.ofNat 125) t.reverse with
    | none => none
    | some u => if 2 ≤ u.length then some u.reverse else none

/-- JSON parsing of the response text, lines 151-175.  `parse` stands for
the external `json.loads`, returning the decode-error message on
failure.  A failure of the pipeline carries the Python exception name
and message that `classify_form` would catch. -/
def parsePipeline (parse : Str → Except Str JValue) (text : Str) : Except (Str × Str) JValue :=
  let cleaned := stripFences text
  match parse cleaned with
  | .ok v => .ok v
  | .error _ =>
    match extractBraces cleaned with
    | some m =>
      match parse m with
      | .ok v => .ok v
      | .error msg => .error (jsonDecodeErrorName, msg)
    | none =>
      .error (valueErrorName,
        "Could not parse JSON from response: ".toList ++ cleaned.take 200 ++ "...".toList)

/-- Wrapping a text in a markdown json fence. -/
def wrapJsonFence (j : Str) : Str := fenceJsonOpen ++ ['\n'] ++ j ++ ['\n'] ++ fence3

/-- Wrapping a text in a bare markdown fence. -/
def wrapBareFence (j : Str) : Str := fence3 ++ ['\n'] ++ j ++ ['\n'] ++ fence3

theorem pyStrip_nonspace_ends (a b : Char) (x : Str)
    (ha : isPySpace a = false) (hb : isPySpace b = false) :
    pyStrip (a :: (x ++ [b])) = a :: (x ++ [b]) := by
  unfold pyStrip
  rw [show (a :: (x ++ [b])).dropWhile isPySpace = a :: (x ++ [b]) by
    simp [List.dropWhile_cons, ha]]
  rw [show (a :: (x ++ [b])).reverse = b :: (x.reverse ++ [a]) by simp]
  rw [show (b :: (x.reverse ++ [a])).dropWhile isPySpace = b :: (x.reverse ++ [a]) by
    simp [List.dropWhile_cons, hb]]
  simp

theorem pyStrip_newline_sandwich (s : Str) : pyStrip ('\n' :: (s ++ ['\n'])) = pyStrip s := by
  unfold pyStrip
  rw [List.dropWhile_cons]
  rw [if_pos (show isPySpace '\n' = true by decide)]
  rw [List.dropWhile_append]
  by_cases h : (s.dropWhile isPySpace).isEmpty
  · rw [if_pos h]
    rw [List.isEmpty_iff] at h
    rw [h]
    simp [List.dropWhile_cons, show isPySpace '\n' = true by decide]
  · rw [if_neg h]
    rw [show ((s.dropWhile isPySpace) ++ ['\n']).reverse
        = '\n' :: (s.dropWhile isPySpace).reverse by simp]
    rw [List.dropWhile_cons]
    rw [if_pos (show isPySpace '\n' = true by decide)]

theorem removeTicks_not_mem (s : Str) (h : backquote ∉ s) : removeTicks s = s := by
  induction s with
  | nil => simp [removeTicks]
  | cons c rest ih =>
    have hc : ¬c = backquote := fun hcc => h (by simp [hcc])
    have hrest : backquote ∉ rest := fun hm => h (List.mem_cons_of_mem _ hm)
    rw [removeTicks, if_neg (fun hand => hc hand.1), ih hrest]

theorem removeTicks_fence_prepend (s : Str) :
    removeTicks (fence3 ++ s) = removeTicks s := by
  show removeTicks (backquote :: (backquote :: backquote :: s)) = removeTicks s
  rw [removeTicks, if_pos ⟨rfl, by simp⟩]
  simp

theorem stripFences_unfenced (j : Str) (hnb : backquote ∉ j) (hs : pyStrip j = j) :
    stripFences j = j := by
  have hpre : ¬fenceJsonOpen <+: j := fun h =>
    hnb (h.subset (by simp [fenceJsonOpen]))
  have hsuf : ¬fence3 <:+ j := fun h =>
    hnb (h.subset (by simp [fence3]))
  have hpre3 : ¬fence3 <+: j := fun h =>
    hnb (h.subset (by simp [fence3]))
  simp only [stripFences]
  rw [hs, if_neg hpre, if_neg hsuf, if_neg hpre3, removeTicks_not_mem j hnb, hs]

theorem stripFences_wrapJson (j : Str) (hnb : backquote ∉ j) (hs : pyStrip j = j) :
    stripFences (wrapJsonFence j) = j := by
  have hnb2 : backquote ∉ '\n' :: (j ++ ['\n']) := by
    intro hm
    rcases List.mem_cons.1 hm with h | h
    · exact absurd h (by decide)
    · rcases List.mem_append.1 h with h | h
      · exact hnb h
      · exact absurd h (by decide)
  have hshape : wrapJsonFence j
      = backquote :: (([backquote, backquote, 'j', 's', 'o', 'n', '\n'] ++ j
          ++ ['\n', backquote, backquote]) ++ [backquote]) := by
    simp [wrapJsonFence, fenceJsonOpen, fence3]
  simp only [stripFences]
  rw [show pyStrip (wrapJsonFence j) = wrapJsonFence j by
    rw [hshape]
    exact pyStrip_nonspace_ends backquote backquote _ (by decide) (by decide)]
  rw [show wrapJsonFence j = fenceJsonOpen ++ (['\n'] ++ (j ++ (['\n'] ++ fence3))) by
    simp [wrapJsonFence]]
  rw [if_pos (List.prefix_append _ _)]
  rw [List.drop_left' (show fenceJsonOpen.length = 7 from rfl)]
  rw [show ['\n'] ++ (j ++ (['\n'] ++ fence3)) = (('\n' :: j) ++ ['\n']) ++ fence3 by simp]
  rw [if_pos (List.suffix_append _ _)]
  rw [List.take_left' (show (('\n' :: j) ++ ['\n']).length
      = ((('\n' :: j) ++ ['\n']) ++ fence3).length - 3 by
    simp [fence3])]
  rw [show ('\n' :: j) ++ ['\n'] = '\n' :: (j ++ ['\n']) by simp]
  rw [removeTicks_not_mem _ hnb2, pyStrip_newline_sandwich, hs]

theorem stripFences_wrapBare (j : Str) (hnb : backquote ∉ j) (hs : pyStrip j = j) :
    stripFences (wrapBareFence j) = j := by
  have hnb2 : backquote ∉ '\n' :: (j ++ ['\n']) := by
    intro hm
    rcases List.mem_cons.1 hm with h | h
    · exact absurd h (by decide)
    · rcases List.mem_append.1 h with h | h
      · exact hnb h
      · exact absurd h (by decide)
  have hshape : wrapBareFence j
      = backquote :: (([backquote, backquote, '\n'] ++ j
          ++ ['\n', backquote, backquote]) ++ [backquote]) := by
    simp [wrapBareFence, fence3]
  have hnopre : ¬fenceJsonOpen <+: wrapBareFence j := by
    intro h
    obtain ⟨t, ht⟩ := h
    rw [show fenceJsonOpen ++ t
        = backquote :: backquote :: backquote :: 'j' :: 's' :: 'o' :: 'n' :: t by
      simp [fenceJsonOpen]] at ht
    rw [show wrapBareFence j
        = backquote :: backquote :: backquote :: '\n' :: (j ++ ['\n'] ++ fence3) by
      simp [wrapBareFence, fence3]] at ht
    simp at ht
  simp only [stripFences]
  rw [show pyStrip (wrapBareFence j) = wrapBareFence j by
    rw [hshape]
    exact pyStrip_nonspace_ends backquote backquote _ (by decide) (by decide)]
  rw [if_neg hnopre]
  rw [show wrapBareFence j = (fence3 ++ ('\n' :: (j ++ ['\n']))) ++ fence3 by
    simp [wrapBareFence, fence3]]
  rw [if_pos (List.suffix_append _ _)]
  rw [List.take_left' (show (fence3 ++ ('\n' :: (j ++ ['\n']))).length
      = ((fence3 ++ ('\n' :: (j ++ ['\n']))) ++ fence3).length - 3 by
    simp [fence3])]
  rw [removeTicks_fence_prepend, removeTicks_not_mem _ hnb2, pyStrip_newline_sandwich, hs]

/-- C6: The response-text preprocessing maps a text wrapped in a
```json fence, wrapped in a bare fence, or left unfenced to the same
parsed result: whenever the stripped, backquote-free text `j` parses,
all three inputs parse to that very value. -/
theorem parse_invariant_under_fences (parse : Str → Except Str JValue) (j : Str) (v : JValue)
    (hnb : backquote ∉ j) (hs : pyStrip j = j) (hp : parse j = .ok v) :
    parsePipeline parse (wrapJsonFence j) = .ok v ∧
    parsePipeline parse (wrapBareFence j) = .ok v ∧
    parsePipeline parse j = .ok v := by
  refine ⟨?_, ?_, ?_⟩
  · simp only [parsePipeline, stripFences_wrapJson j hnb hs, hp]
  · simp only [parsePipeline, stripFences_wrapBare j hnb hs, hp]
  · simp only [parsePipeline, stripFences_unfenced j hnb hs, hp]

/-- C6 witness: a concrete two-character object text, a parser that
accepts it, and the three wrappings agreeing on the parsed value. -/
theorem parse_invariant_under_fences_witness :
    backquote ∉ [Char.ofNat 123, Char.ofNat 125] ∧
    pyStrip [Char.ofNat 123, Char.ofNat 125] = [Char.ofNat 123, Char.ofNat 125] ∧
    parsePipeline (fun _ => .ok (.obj [])) (wrapJsonFence [Char.ofNat 123, Char.ofNat 125])
      = .ok (.obj []) ∧
    parsePipeline (fun _ => .ok (.obj [])) (wrapBareFence [Char.ofNat 123, Char.ofNat 125])
      = .ok (.obj []) ∧
    parsePipeline (fun _ => .ok (.obj [])) [Char.ofNat 123, Char.ofNat 125]
      = .ok (.obj []) := by
  have h := parse_invariant_under_fences (fun _ => .ok (.obj []))
    [Char.ofNat 123, Char.ofNat 125] (.obj []) (by decide) (by decide) rfl
  exact ⟨by decide, by decide, h.1, h.2.1, h.2.2⟩

/-- Token usage reported by the oracle (lines 178-182). -/
structure TokenUsage where
  input_tokens : Nat
  output_tokens : Nat
  total_tokens : Nat
deriving DecidableEq

/-- The `ClassificationResult` dataclass (lines 31-42).  The dynamically
typed fields extracted from the JSON response are `JValue`s;
`token_usage = none` models the empty dict `{}` of the error branch. -/
structure ClassificationResult where
  filename : Str
  form_number : JValue
  form_title : JValue
  page_count : JValue
  confidence : JValue
  llm_response : JValue
  is_verified : Bool
  token_usage : Option TokenUsage
  error : Option Str

/-- Python `==` between a JSON-decoded value and an int: true for the
equal int and for the booleans (which equal 0/1 in Python). -/
def pyIntOfJ : JValue → Option Int
  | .num m => some m
  | .bool b => some (if b then 1 else 0)
  | _ => none

/-- `_verify_classification` as invoked on dynamically typed extracted
values: a non-string `form_number` is either unhashable (raises) or
simply not a key; a non-string `form_title` raises at `.strip()`; a
non-integral `page_count` fails the equality. -/
def verifyClassificationDyn (cfgs : List (Str × FormConfig)) (fuzz : Str → Str → Rat) :
    JValue → JValue → JValue → Except (Str × Str) Bool
  | .str s, ft, pc =>
    match lookupConfig cfgs s with
    | none => .ok false
    | some _ =>
      match ft with
      | .str t =>
        .ok (match pyIntOfJ pc with
             | some p => verifyClassification cfgs fuzz s t p
             | none => false)
      | _ => .error (attributeErrorName, "object has no attribute strip".toList)
  | .arr _, _, _ => .error (typeErrorName, "unhashable type list".toList)
  | .obj _, _, _ => .error (typeErrorName, "unhashable type dict".toList)
  | _, _, _ => .ok false

/-- The four extractions of lines 185-188 in sequence. -/
def extract4 (v : JValue) : Except (Str × Str) (JValue × JValue × JValue × JValue) := do
  let fn ← extractField v kFormNumber kValue (.str [])
  let ft ← extractField v kFormTitle kValue (.str [])
  let pc ← extractField v kPageCount kValue (.num 0)
  let conf ← extractField v kFormNumber kConfidenceLevel (.str lowLabel)
  .ok (fn, ft, pc, conf)

/-- Outcome of the external oracle interaction for one document, the
input over which `classify_form` is deterministic.  `diag` carries the
best-effort introspection lines (lines 212-243) read off the opaque
response object when one exists; `uploadedName` the opaque uploaded-file
handle name. -/
inductive OracleOutcome where
  | uploadFail (msg : Str) : OracleOutcome
  | generateFail (uploadedName ty msg : Str) : OracleOutcome
  | textFail (uploadedName ty msg : Str) (diag : List Str) : OracleOutcome
  | responded (uploadedName : Str) (text : Str) (tok : TokenUsage) (diag : List Str) :
      OracleOutcome

def valueErrorUploadMsg (pdf_path msg : Str) : Str :=
  "Error loading PDF file ".toList ++ pdf_path ++ ": ".toList ++ msg

/-- Line 247: `model.model_name` (the SDK prefixes `models/`). -/
def modelUsedLine : Str := "Model Used: models/gemini-2.5-flash-lite".toList

/-- Lines 246-257: the deterministic trailing diagnostic lines.  The
`Generation Config` line of 248 is never appended because the name
`generation_config` is unbound there and the bare `except` swallows the
`NameError`. -/
def tailExtras (pdf_path uploadedName : Str) : List Str :=
  [modelUsedLine, "File: ".toList ++ pdf_path, "Uploaded File: ".toList ++ uploadedName]

def indentTwo (l : Str) : Str := ' ' :: ' ' :: l

/-- Python `"\n".join(lines)`. -/
def joinLines : List Str → Str
  | [] => []
  | [l] => l
  | l :: l2 :: ls => l ++ '\n' :: joinLines (l2 :: ls)

/-- Lines 205-260: the diagnostic report, two fixed leading lines then
the context-dependent extras, each line indented by two spaces. -/
def detailedError (ty msg : Str) (extras : List Str) : Str :=
  joinLines ((("Exception Type: ".toList ++ ty) :: ("Error Message: ".toList ++ msg) :: extras).map
    indentTwo)

/-- The result constructed by the `except` branch, lines 268-278. -/
def errResult (filename e : Str) : ClassificationResult :=
  ⟨filename, .str [], .str [], .num 0, .str lowLabel, .obj [], false, none, some e⟩

/-- `classify_form` (lines 102-288) as a function of the oracle outcome. -/
def classifyForm (cfgs : List (Str × FormConfig)) (fuzz : Str → Str → Rat)
    (parse : Str → Except Str JValue) (pdf_path filename : Str) :
    OracleOutcome → ClassificationResult
  | .uploadFail msg =>
    errResult filename
      (detailedError valueErrorName (valueErrorUploadMsg pdf_path msg)
        (tailExtras pdf_path "None".toList))
  | .generateFail un ty msg =>
    errResult filename (detailedError ty msg (tailExtras pdf_path un))
  | .textFail un ty msg diag =>
    errResult filename (detailedError ty msg (diag ++ tailExtras pdf_path un))
  | .responded un text tok diag =>
    match parsePipeline parse text with
    | .error (ty, msg) =>
      errResult filename (detailedError ty msg (diag ++ tailExtras pdf_path un))
    | .ok v =>
      match extract4 v with
      | .error (ty, msg) =>
        errResult filename (detailedError ty msg (diag ++ tailExtras pdf_path un))
      | .ok (fn, ft, pc, conf) =>
        match verifyClassificationDyn cfgs fuzz fn ft pc with
        | .error (ty, msg) =>
          errResult filename (detailedError ty msg (diag ++ tailExtras pdf_path un))
        | .ok ver =>
          ⟨filename, fn, ft, pc, conf, v, ver, some tok, none⟩

/-- The exception type and message caught by `classify_form` for each of
the failures named by the claim: upload errors (wrapped into a
`ValueError` by `load_pdf_file`), generation errors, response-access
errors, and response-parse errors. -/
def failureInfo (parse : Str → Except Str JValue) (pdf_path : Str) :
    OracleOutcome → Option (Str × Str)
  | .uploadFail msg => some (valueErrorName, valueErrorUploadMsg pdf_path msg)
  | .generateFail _ ty msg => some (ty, msg)
  | .textFail _ ty msg _ => some (ty, msg)
  | .responded _ text _ _ =>
    match parsePipeline parse text with
    | .error e => some e
    | .ok _ => none

theorem joinLines_infix_of_mem : ∀ (ls : List Str) (l : Str), l ∈ ls → l <:+: joinLines ls
  | [], l, h => absurd h (List.not_mem_nil l)
  | [x], l, h => by
    rw [List.mem_singleton] at h
    subst h
    exact List.infix_refl _
  | x :: y :: ls, l, h => by
    rcases List.mem_cons.1 h with h | h
    · subst h
      exact (List.prefix_append _ _).isInfix
    · have h2 : joinLines (y :: ls) <:+ x ++ '\n' :: joinLines (y :: ls) :=
        ⟨x ++ ['\n'], by simp⟩
      exact (joinLines_infix_of_mem (y :: ls) l h).trans h2.isInfix

theorem newline_mem_joinLines (l0 l1 : Str) (rest : List Str) :
    '\n' ∈ joinLines (l0 :: l1 :: rest) := by
  show '\n' ∈ l0 ++ '\n' :: joinLines (l1 :: rest)
  simp

theorem detailedError_spec (ty msg : Str) (extras : List Str) :
    ty <:+: detailedError ty msg extras ∧ msg <:+: detailedError ty msg extras ∧
      '\n' ∈ detailedError ty msg extras := by
  refine ⟨?_, ?_, ?_⟩
  · have h1 : ty <:+ indentTwo ("Exception Type: ".toList ++ ty) :=
      ⟨' ' :: ' ' :: "Exception Type: ".toList, by simp [indentTwo]⟩
    exact h1.isInfix.trans (joinLines_infix_of_mem _ _ (by simp [detailedError]))
  · have h1 : msg <:+ indentTwo ("Error Message: ".toList ++ msg) :=
      ⟨' ' :: ' ' :: "Error Message: ".toList, by simp [indentTwo]⟩
    exact h1.isInfix.trans (joinLines_infix_of_mem _ _ (by simp [detailedError]))
  · exact newline_mem_joinLines _ _ _

/-- C5: On every failure inside `classify_form` — upload error,
generation error, response-access error, or response-parse error — no
exception escapes: the returned result has all typed fields at their
defaults (empty form number and title, page count 0, confidence Low,
empty llm_response and token_usage), `is_verified = false`, and a
populated multi-line `error` diagnostic containing the exception type
and message. -/
theorem classify_failure_defaults (cfgs : List (Str × FormConfig)) (fuzz : Str → Str → Rat)
    (parse : Str → Except Str JValue) (pdf_path filename : Str) (o : OracleOutcome)
    (ty msg : Str) (h : failureInfo parse pdf_path o = some (ty, msg)) :
    (classifyForm cfgs fuzz parse pdf_path filename o).form_number = .str [] ∧
    (classifyForm cfgs fuzz parse pdf_path filename o).form_title = .str [] ∧
    (classifyForm cfgs fuzz parse pdf_path filename o).page_count = .num 0 ∧
    (classifyForm cfgs fuzz parse pdf_path filename o).confidence = .str lowLabel ∧
    (classifyForm cfgs fuzz parse pdf_path filename o).llm_response = .obj [] ∧
    (classifyForm cfgs fuzz parse pdf_path filename o).token_usage = none ∧
    (classifyForm cfgs fuzz parse pdf_path filename o).is_verified = false ∧
    ∃ s, (classifyForm cfgs fuzz parse pdf_path filename o).error = some s ∧
      ty <:+: s ∧ msg <:+: s ∧ '\n' ∈ s := by
  cases o with
  | uploadFail m =>
    simp only [failureInfo, Option.some.injEq, Prod.mk.injEq] at h
    obtain ⟨hty, hmsg⟩ := h
    subst hty hmsg
    refine ⟨rfl, rfl, rfl, rfl, rfl, rfl, rfl, detailedError _ _ _, rfl, ?_⟩
    exact detailedError_spec _ _ _
  | generateFail un t m =>
    simp only [failureInfo, Option.some.injEq, Prod.mk.injEq] at h
    obtain ⟨hty, hmsg⟩ := h
    subst hty hmsg
    refine ⟨rfl, rfl, rfl, rfl, rfl, rfl, rfl, detailedError _ _ _, rfl, ?_⟩
    exact detailedError_spec _ _ _
  | textFail un t m diag =>
    simp only [failureInfo, Option.some.injEq, Prod.mk.injEq] at h
    obtain ⟨hty, hmsg⟩ := h
    subst hty hmsg
    refine ⟨rfl, rfl, rfl, rfl, rfl, rfl, rfl, detailedError _ _ _, rfl, ?_⟩
    exact detailedError_spec _ _ _
  | responded un text tok diag =>
    cases hpp : parsePipeline parse text with
    | ok v =>
      rw [failureInfo, hpp] at h
      exact absurd h (by simp)
    | error e =>
      rw [failureInfo, hpp] at h
      obtain ⟨e1, e2⟩ := e
      simp only [Option.some.injEq, Prod.mk.injEq] at h
      obtain ⟨hty, hmsg⟩ := h
      subst hty hmsg
      simp only [classifyForm, hpp]
      refine ⟨rfl, rfl, rfl, rfl, rfl, rfl, rfl, detailedError _ _ _, rfl, ?_⟩
      exact detailedError_spec _ _ _

/-- C5 witness: a concrete upload failure yields the default result with
a populated diagnostic. -/
theorem classify_failure_defaults_witness :
    failureInfo (fun _ => .error []) ['p'] (.uploadFail ['x'])
      = some (valueErrorName, valueErrorUploadMsg ['p'] ['x']) ∧
    (classifyForm [] (fun _ _ => 0) (fun _ => .error []) ['p'] ['f']
        (.uploadFail ['x'])).is_verified = false ∧
    ∃ s, (classifyForm [] (fun _ _ => 0) (fun _ => .error []) ['p'] ['f']
        (.uploadFail ['x'])).error = some s ∧
      valueErrorName <:+: s ∧ valueErrorUploadMsg ['p'] ['x'] <:+: s ∧ '\n' ∈ s := by
  have h := classify_failure_defaults [] (fun _ _ => 0) (fun _ => .error []) ['p'] ['f']
    (.uploadFail ['x']) valueErrorName (valueErrorUploadMsg ['p'] ['x']) rfl
  exact ⟨rfl, h.2.2.2.2.2.2.1, h.2.2.2.2.2.2.2⟩

/-- The sampling parameters of the `GenerationConfig` literal,
lines 140-147. -/
structure GenerationConfig where
  temperature : Rat
  top_p : Rat
  top_k : Nat
  max_output_tokens : Nat
  candidate_count : Nat
deriving DecidableEq

/-- Lines 140-147: every oracle call of `classify_form` is issued with
exactly these values (the comment there claims "Minimum temperature";
the Gemini temperature range is 0-2 with minimum 0 and default 1). -/
def classifyGenerationConfig : GenerationConfig := ⟨1, 0.95, 10, 1500, 1⟩

def blockNone : Str := "BLOCK_NONE".toList

/-- Lines 121-126: the safety settings passed to every model instance. -/
def classifySafetySettings : List (Str × Str) :=
  [("HARM_CATEGORY_HARASSMENT".toList, blockNone),
   ("HARM_CATEGORY_HATE_SPEECH".toList, blockNone),
   ("HARM_CATEGORY_DANGEROUS_CONTENT".toList, blockNone),
   ("HARM_CATEGORY_SEXUALLY_EXPLICIT".toList, blockNone)]

/-- C9 evidence: the oracle call uses a single candidate, a 1500-token
output limit, top_k 10, top_p 0.95, and safety filtering disabled for
all four harm categories — but its temperature is 1, the sampling
default and not a low or minimal value, contradicting the in-code
comment "Minimum temperature for maximum consistency" and the spec's
"low randomness". -/
theorem classify_oracle_config_values :
    classifyGenerationConfig.temperature = 1 ∧
    classifyGenerationConfig.temperature ≠ 0 ∧
    classifyGenerationConfig.top_p = 19 / 20 ∧
    classifyGenerationConfig.top_k = 10 ∧
    classifyGenerationConfig.max_output_tokens = 1500 ∧
    classifyGenerationConfig.candidate_count = 1 ∧
    classifySafetySettings.length = 4 ∧
    classifySafetySettings.all (fun p => p.2 = blockNone) = true := by
  refine ⟨rfl, by norm_num [classifyGenerationConfig], by norm_num [classifyGenerationConfig],
    rfl, rfl, rfl, rfl, by decide⟩

/-- The observable effects of the try-block of `main` (lines 786-815),
abstracting the world-dependent pipeline; `main` always returns
normally from it, so the process exit status is 0 on that path too. -/
structure PipelineRun where
  printed : List Str
  configLoaded : Bool
  docsProcessed : Nat
  resultsSaved : Bool
  statsSaved : Bool
deriving DecidableEq

/-- The observable effects of one `main` invocation plus the process
exit status. -/
structure MainRun where
  printed : List Str
  configLoaded : Bool
  docsProcessed : Nat
  resultsSaved : Bool
  statsSaved : Bool
  exitCode : Nat
deriving DecidableEq

/-- Line 781: `args.api_key or os.getenv('GEMINI_API_KEY')` — Python
`or` falls through on a falsy (absent or empty) flag. -/
def pyOrKey (flag env : Option Str) : Option Str :=
  match flag with
  | some s => if s.isEmpty then env else some s
  | none => env

/-- Line 782: `if not api_key` — true for an absent or empty key. -/
def keyFalsy : Option Str → Bool
  | none => true
  | some s => s.isEmpty

def apiKeyErrorMsg : Str :=
  "Error: Please provide API key via --api-key or GEMINI_API_KEY environment variable".toList

/-- `main` (lines 769-815) after argument parsing: with a falsy resolved
API key it prints the error and returns — a plain `return`, so the
Python process terminates with exit status 0; otherwise the try-block
pipeline runs and `main` again returns normally (status 0). -/
def mainModel (flag env : Option Str) (pipeline : PipelineRun) : MainRun :=
  if keyFalsy (pyOrKey flag env) then
    ⟨[apiKeyErrorMsg], false, 0, false, false, 0⟩
  else
    ⟨pipeline.printed, pipeline.configLoaded, pipeline.docsProcessed,
     pipeline.resultsSaved, pipeline.statsSaved, 0⟩

/-- C8 counterexample: with no API key from flag or environment, `main`
does print the error and processes nothing, but the process terminates
with exit status 0 — a success status, not the non-zero-equivalent
failure status the claim asserts. -/
theorem main_missing_key_exit_zero :
    (mainModel none none ⟨[], true, 5, true, true⟩).exitCode = 0 ∧
    (mainModel none none ⟨[], true, 5, true, true⟩).printed = [apiKeyErrorMsg] ∧
    (mainModel none none ⟨[], true, 5, true, true⟩).docsProcessed = 0 :=
  ⟨rfl, rfl, rfl⟩

/-- C8 amended: whenever the resolved API key is falsy the CLI aborts
before any processing — no config load, no document processed, no output
or statistics file written — and prints the clear error message; the
termination status, however, is the normal exit status 0. -/
theorem main_missing_key_aborts (flag env : Option Str) (pipeline : PipelineRun)
    (h : keyFalsy (pyOrKey flag env) = true) :
    mainModel flag env pipeline = ⟨[apiKeyErrorMsg], false, 0, false, false, 0⟩ := by
  simp [mainModel, h]

/-- C8 amended witness: the fully absent key. -/
theorem main_missing_key_aborts_witness :
    keyFalsy (pyOrKey none none) = true ∧
    mainModel none none ⟨[], false, 0, false, false⟩
      = ⟨[apiKeyErrorMsg], false, 0, false, false, 0⟩ :=
  ⟨rfl, main_missing_key_aborts none none ⟨[], false, 0, false, false⟩ rfl⟩

def natToStr (n : Nat) : Str := (toString n).toList

def intToStr (n : Int) : Str := (toString n).toList

mutual

/-- Python `repr` of a JSON-decoded value (used by `str()` on lists and
dicts); string escaping subtleties inside `repr` are immaterial to the
claims. -/
def jReprQ : JValue → Str
  | .null => "None".toList
  | .bool true => "True".toList
  | .bool false => "False".toList
  | .num n => intToStr n
  | .str s => Char.ofNat 39 :: s ++ [Char.ofNat 39]
  | .arr xs => Char.ofNat 91 :: jReprList xs ++ [Char.ofNat 93]
  | .obj fs => Char.ofNat 123 :: jReprFields fs ++ [Char.ofNat 125]

def jReprList : List JValue → Str
  | [] => []
  | [x] => jReprQ x
  | x :: y :: xs => jReprQ x ++ ", ".toList ++ jReprList (y :: xs)

def jReprFields : List (Str × JValue) → Str
  | [] => []
  | [p] => (Char.ofNat 39 :: p.1 ++ [Char.ofNat 39]) ++ ": ".toList ++ jReprQ p.2
  | p :: q :: ps =>
    (Char.ofNat 39 :: p.1 ++ [Char.ofNat 39]) ++ ": ".toList ++ jReprQ p.2 ++ ", ".toList
      ++ jReprFields (q :: ps)

end

/-- Python `str()` of a JSON-decoded value. -/
def jStr : JValue → Str
  | .str s => s
  | v => jReprQ v

def yesCell : Str := "Yes".toList

def noCell : Str := "No".toList

def exceptOk {E A : Type} : Except E A → Bool
  | .ok _ => true
  | .error _ => false

/-- Lines 479-516: the 13-cell statistics row of one result.  Cells are
modelled by their rendered text (`str()`), which is exactly what the
HTML read-back of line 451 recovers.  A container-typed `form_number`
is unhashable and raises at the `in` test of line 484; a
non-dict-shaped `llm_response` raises at the `.get` chains of lines
490-494 — those exceptions escape `save_stats`. -/
def mkStatsRow (cfgs : List (Str × FormConfig)) (date : Str) (r : ClassificationResult) :
    Except (Str × Str) (List Str) := do
  let ep ←
    match r.form_number with
    | .str s =>
      match lookupConfig cfgs s with
      | some c =>
        Except.ok (c.expected_title_1 ++ " OR ".toList ++ c.expected_title_2,
          intToStr c.expected_pages)
      | none => Except.ok (([] : Str), ([] : Str))
    | .arr _ => Except.error (typeErrorName, "unhashable type list".toList)
    | .obj _ => Except.error (typeErrorName, "unhashable type dict".toList)
    | _ => Except.ok (([] : Str), ([] : Str))
  let llm_data ← pyGet r.llm_response kFormClassification (.obj [])
  let a ← pyGet llm_data kFormNumber (.obj [])
  let form_type_conf ← pyGet a kConfidenceLevel (.num 0)
  let b ← pyGet llm_data kFormTitle (.obj [])
  let title_conf ← pyGet b kConfidenceLevel (.num 0)
  let c2 ← pyGet llm_data kPageCount (.obj [])
  let pages_conf ← pyGet c2 kConfidenceLevel (.num 0)
  let input_tokens := match r.token_usage with | some t => t.input_tokens | none => 0
  let output_tokens := match r.token_usage with | some t => t.output_tokens | none => 0
  Except.ok [r.filename, date, jStr r.form_number, jStr form_type_conf, jStr r.form_title,
    jStr title_conf, jStr r.page_count, jStr pages_conf, natToStr input_tokens,
    natToStr output_tokens, ep.1, ep.2, if r.is_verified then yesCell else noCell]

/-- The statistics file state as `save_stats` observes it:
`tableWithTbody` is the read-phase condition (`'<table' in content and
'<tbody>' in content` plus BeautifulSoup finding a table with a tbody,
lines 429-438), `hasTbody` the write-phase `soup.find('tbody')`
condition (line 546), `tbodyRows` the cell texts of the rows inside the
tbody. -/
structure StatsFile where
  fileExists : Bool
  tableWithTbody : Bool
  hasTbody : Bool
  tbodyRows : List (List Str)
deriving DecidableEq

/-- Lines 443-460: a tbody row is read back when it has at least the 13
header cells and some nonblank cell; each cell comes back as its
stripped text (`get_text(strip=True)`). -/
def parsedRow (r : List Str) : Option (List Str) :=
  if 13 ≤ r.length then
    let row_data := r.map pyStrip
    if row_data ≠ [] ∧ row_data.any (fun c => !(pyStrip c).isEmpty) then some row_data
    else none
  else none

def parseTbodyRows (rows : List (List Str)) : List (List Str) := rows.filterMap parsedRow

/-- The `save_stats` file-state transition on precomputed rows (lines
417-767, executions without I/O exceptions): the read phase collects
prior rows only under `tableWithTbody`; the write phase appends
existing-plus-new rows into the tbody when one is found, silently
writes the old content back untouched when the file exists but has no
tbody, and creates the file fresh (13-column header plus all rows) when
the file does not exist. -/
def saveStatsUpdate (f : StatsFile) (newRows : List (List Str)) : StatsFile :=
  let existing := if f.fileExists && f.tableWithTbody then parseTbodyRows f.tbodyRows else []
  let allRows := existing ++ newRows
  if f.fileExists then
    if f.hasTbody then ⟨true, f.tableWithTbody, true, allRows⟩
    else f
  else ⟨true, true, true, allRows⟩

/-- The row-building loop of lines 478-516. -/
def mapRows (cfgs : List (Str × FormConfig)) (date : Str) :
    List ClassificationResult → Except (Str × Str) (List (List Str))
  | [] => .ok []
  | r :: rest => do
    let row ← mkStatsRow cfgs date r
    let rows ← mapRows cfgs date rest
    .ok (row :: rows)

/-- One `save_stats` invocation: build the rows, then apply the file
transition. -/
def saveStatsModel (cfgs : List (Str × FormConfig)) (date : Str)
    (results : List ClassificationResult) (f : StatsFile) : Except (Str × Str) StatsFile := do
  let newRows ← mapRows cfgs date results
  .ok (saveStatsUpdate f newRows)

/-- A sequence of `save_stats` invocations against the same file, each
reading the state left by the previous one. -/
def runStats (cfgs : List (Str × FormConfig)) :
    List (Str × List ClassificationResult) → StatsFile → Except (Str × Str) StatsFile
  | [], f => .ok f
  | (date, results) :: rest, f => do
    let f2 ← saveStatsModel cfgs date results f
    runStats cfgs rest f2

def absentStatsFile : StatsFile := ⟨false, false, false, []⟩

def unparseableStatsFile : StatsFile := ⟨true, false, false, []⟩

/-- C4 evidence: on a pre-existing statistics file whose content is not
a well-formed table (no table/tbody — BeautifulSoup parses any text
without raising, so the exception-recovery path of lines 647-650 never
fires), `save_stats` writes the old content back unchanged: the file is
not recreated with the header and the current run's row is silently
lost. -/
theorem save_stats_drops_rows_on_unparseable_file :
    saveStatsUpdate unparseableStatsFile [List.replicate 12 [] ++ [yesCell]]
      = unparseableStatsFile ∧
    (saveStatsUpdate unparseableStatsFile [List.replicate 12 [] ++ [yesCell]]).tbodyRows
      = [] :=
  ⟨rfl, rfl⟩

/-- A row as persisted by this application: 13 cells with the success
cell being `Yes` or `No`. -/
def goodRow (r : List Str) : Prop :=
  r.length = 13 ∧ (r[12]? = some yesCell ∨ r[12]? = some noCell)

theorem mkStatsRow_ok_shape {cfgs : List (Str × FormConfig)} {date : Str}
    {r : ClassificationResult} {row : List Str}
    (h : mkStatsRow cfgs date r = .ok row) : goodRow row := by
  unfold mkStatsRow at h
  simp only [bind, Except.bind] at h
  repeat' split at h
  all_goals first
    | exact Except.noConfusion h
    | (injection h with h2; subst h2; exact ⟨rfl, Or.inl rfl⟩)
    | (injection h with h2; subst h2; exact ⟨rfl, Or.inr rfl⟩)

theorem mapRows_ok (cfgs : List (Str × FormConfig)) (date : Str) :
    ∀ results : List ClassificationResult,
      (∀ r ∈ results, exceptOk (mkStatsRow cfgs date r) = true) →
      ∃ rows, mapRows cfgs date results = .ok rows ∧ rows.length = results.length ∧
        ∀ row ∈ rows, goodRow row
  | [], _ => ⟨[], rfl, rfl, by simp⟩
  | r :: rest, hok => by
    have h1 := hok r (List.mem_cons_self r rest)
    cases hrow : mkStatsRow cfgs date r with
    | error e => rw [hrow] at h1; exact absurd h1 (by simp [exceptOk])
    | ok row =>
      obtain ⟨rows, hmr, hlen, hgood⟩ :=
        mapRows_ok cfgs date rest (fun x hx => hok x (List.mem_cons_of_mem r hx))
      refine ⟨row :: rows, ?_, by simp [hlen], ?_⟩
      · simp [mapRows, hrow, hmr, bind, Except.bind]
      · intro row2 h2
        rcases List.mem_cons.1 h2 with h2 | h2
        · exact h2 ▸ mkStatsRow_ok_shape hrow
        · exact hgood row2 h2

theorem pyStrip_yesCell : pyStrip yesCell = yesCell := by decide

theorem pyStrip_noCell : pyStrip noCell = noCell := by decide

theorem parsedRow_good (r : List Str) (h : goodRow r) :
    parsedRow r = some (r.map pyStrip) ∧ goodRow (r.map pyStrip) := by
  obtain ⟨hlen, hcell⟩ := h
  have hmap12 : (r.map pyStrip)[12]? = some yesCell ∨ (r.map pyStrip)[12]? = some noCell := by
    rcases hcell with hc | hc
    · exact Or.inl (by rw [List.getElem?_map, hc]; simp [pyStrip_yesCell])
    · exact Or.inr (by rw [List.getElem?_map, hc]; simp [pyStrip_noCell])
  have hany : (r.map pyStrip).any (fun c => !(pyStrip c).isEmpty) = true := by
    rcases hmap12 with hc | hc
    · exact List.any_eq_true.2 ⟨yesCell, List.getElem?_mem hc, by decide⟩
    · exact List.any_eq_true.2 ⟨noCell, List.getElem?_mem hc, by decide⟩
  refine ⟨?_, by simp [hlen], hmap12⟩
  simp only [parsedRow]
  rw [if_pos (by omega : 13 ≤ r.length)]
  rw [if_pos ?hcond]
  case hcond =>
    refine ⟨fun heq => ?_, hany⟩
    rw [List.map_eq_nil_iff] at heq
    rw [heq] at hlen
    exact absurd hlen (by decide)

theorem parseTbodyRows_good : ∀ rows : List (List Str), (∀ r ∈ rows, goodRow r) →
    (parseTbodyRows rows).length = rows.length ∧
      ∀ r ∈ parseTbodyRows rows, goodRow r
  | [], _ => ⟨rfl, by simp [parseTbodyRows]⟩
  | r :: rest, h => by
    obtain ⟨hp, hg⟩ := parsedRow_good r (h r (List.mem_cons_self r rest))
    obtain ⟨ih1, ih2⟩ :=
      parseTbodyRows_good rest (fun x hx => h x (List.mem_cons_of_mem r hx))
    constructor
    · show (List.filterMap parsedRow (r :: rest)).length = rest.length + 1
      rw [List.filterMap_cons_some hp, List.length_cons]
      rw [show (List.filterMap parsedRow rest).length = rest.length from ih1]
    · intro x hx
      rw [show parseTbodyRows (r :: rest) = r.map pyStrip :: parseTbodyRows rest from by
        simp [parseTbodyRows, List.filterMap_cons_some hp]] at hx
      rcases List.mem_cons.1 hx with hx | hx
      · exact hx ▸ hg
      · exact ih2 x hx

/-- The invariant preserved across well-formed `save_stats` states: the
file exists with a table and tbody, and every persisted row is a
13-cell row with a Yes/No success cell. -/
def statsInv (f : StatsFile) : Prop :=
  f.fileExists = true ∧ f.tableWithTbody = true ∧ f.hasTbody = true ∧
    ∀ r ∈ f.tbodyRows, goodRow r

theorem saveStats_step (cfgs : List (Str × FormConfig)) (date : Str)
    (results : List ClassificationResult) (f : StatsFile)
    (hf : statsInv f ∨ (f.fileExists = false ∧ f.tbodyRows = []))
    (hok : ∀ r ∈ results, exceptOk (mkStatsRow cfgs date r) = true) :
    ∃ f2, saveStatsModel cfgs date results f = .ok f2 ∧ statsInv f2 ∧
      f2.tbodyRows.length = f.tbodyRows.length + results.length := by
  obtain ⟨rows, hmr, hlen, hgood⟩ := mapRows_ok cfgs date results hok
  rcases hf with ⟨h1, h2, h3, h4⟩ | ⟨h1, h2⟩
  · obtain ⟨hplen, hpgood⟩ := parseTbodyRows_good f.tbodyRows h4
    refine ⟨⟨true, f.tableWithTbody, true, parseTbodyRows f.tbodyRows ++ rows⟩, ?_, ?_, ?_⟩
    · simp [saveStatsModel, hmr, bind, Except.bind, saveStatsUpdate, h1, h2, h3]
    · refine ⟨rfl, h2, rfl, ?_⟩
      intro r hr
      rcases List.mem_append.1 hr with hr | hr
      · exact hpgood r hr
      · exact hgood r hr
    · simp [hplen, hlen]
  · refine ⟨⟨true, true, true, [] ++ rows⟩, ?_, ?_, ?_⟩
    · simp [saveStatsModel, hmr, bind, Except.bind, saveStatsUpdate, h1]
    · exact ⟨rfl, rfl, rfl, by simpa using hgood⟩
    · simp [h2, hlen]

theorem runStats_length (cfgs : List (Str × FormConfig)) (k : Nat) :
    ∀ (batches : List (Str × List ClassificationResult)) (f : StatsFile),
      (statsInv f ∨ (f.fileExists = false ∧ f.tbodyRows = [])) →
      (∀ b ∈ batches, (b.2).length = k) →
      (∀ b ∈ batches, ∀ r ∈ b.2, exceptOk (mkStatsRow cfgs b.1 r) = true) →
      ∃ f2, runStats cfgs batches f = .ok f2 ∧
        f2.tbodyRows.length = f.tbodyRows.length + batches.length * k
  | [], f, _, _, _ => ⟨f, rfl, by simp⟩
  | (date, results) :: rest, f, hf, hlen, hok => by
    obtain ⟨f2, hstep, hinv, hflen⟩ :=
      saveStats_step cfgs date results f hf
        (hok (date, results) (List.mem_cons_self _ rest))
    obtain ⟨f3, hrun, hrlen⟩ :=
      runStats_length cfgs k rest f2 (Or.inl hinv)
        (fun b hb => hlen b (List.mem_cons_of_mem _ hb))
        (fun b hb => hok b (List.mem_cons_of_mem _ hb))
    refine ⟨f3, ?_, ?_⟩
    · simp [runStats, hstep, bind, Except.bind, hrun]
    · rw [hrlen, hflen, hlen (date, results) (List.mem_cons_self _ rest)]
      simp only [List.length_cons]
      ring

/-- C2: The statistics table is an append-only log: starting from a
nonexistent file, after N `save_stats` invocations of k results each —
every invocation reading the well-formed file state left by the
previous one — the table body holds exactly N×k rows: each result
contributes exactly one row and no persisted row is lost or
duplicated. -/
theorem stats_rows_accumulate (cfgs : List (Str × FormConfig))
    (batches : List (Str × List ClassificationResult)) (k : Nat)
    (hlen : ∀ b ∈ batches, (b.2).length = k)
    (hok : ∀ b ∈ batches, ∀ r ∈ b.2, exceptOk (mkStatsRow cfgs b.1 r) = true) :
    ∃ f, runStats cfgs batches absentStatsFile = .ok f ∧
      f.tbodyRows.length = batches.length * k := by
  obtain ⟨f, hr, hl⟩ :=
    runStats_length cfgs k batches absentStatsFile (Or.inr ⟨rfl, rfl⟩) hlen hok
  exact ⟨f, hr, by simpa [absentStatsFile] using hl⟩

/-- A concrete error-shaped result for the C2 witness. -/
def demoResult : ClassificationResult :=
  ⟨['f'], .str [], .str [], .num 0, .str lowLabel, .obj [], false, none, none⟩

/-- C2 witness: two runs of one document each against the same file
leave exactly 2 = 2×1 rows. -/
theorem stats_rows_accumulate_witness :
    ∃ f, runStats [] [([], [demoResult]), ([], [demoResult])] absentStatsFile = .ok f ∧
      f.tbodyRows.length = 2 := by
  have h := stats_rows_accumulate [] [([], [demoResult]), ([], [demoResult])] 1
    (by decide) (by decide)
  simpa using h
